import Mathlib

/-!
Shallow embedding of the user-management backend under src/:
`models/user.py`, `repositories/base.py`, `repositories/user.py`,
`services/auth.py`, `services/user.py`, `routes/v1/auth.py`,
`routes/v1/users.py`, `schemas/user.py`, `core/config.py`.

Conventions of the embedding: machine integers and wall-clock instants are
`Nat` (seconds); the database session is a list of user rows passed and
returned explicitly; fallible code returns `Option` or `Except`; an HTTP
handler returns a `Response` value (status code, optional body, optional
detail string) together with the database state after the request.
-/

namespace App

/-- Row of the `users` table (`models/user.py` `User` plus the `id`,
`created_at`, `updated_at` columns inherited from `models/base.py`
`BaseModel`). `last_login` is nullable, `full_name` is nullable. -/
structure User where
  id : Nat
  email : String
  username : String
  full_name : Option String
  hashed_password : String
  is_active : Bool
  is_verified : Bool
  is_superuser : Bool
  last_login : Option Nat
  created_at : Nat
  updated_at : Nat
deriving Repr, DecidableEq

/-- A database session's view of the `users` table. -/
abbrev DB := List User

/-- One key/value pair of the field map handed to
`BaseRepository.update` (`repositories/base.py`). The repository probes
`hasattr` and silently ignores unknown keys; `unknown` models such a key. -/
inductive FieldVal where
  | email (v : String)
  | username (v : String)
  | full_name (v : Option String)
  | hashed_password (v : String)
  | is_active (v : Bool)
  | is_verified (v : Bool)
  | is_superuser (v : Bool)
  | last_login (v : Option Nat)
  | unknown (name : String)
deriving Repr, DecidableEq

/-- The `setattr(db_obj, field, value)` step inside
`BaseRepository.update`; an unknown field is skipped (`hasattr` probe). -/
def setAttr (u : User) (f : FieldVal) : User :=
  match f with
  | .email v => { u with email := v }
  | .username v => { u with username := v }
  | .full_name v => { u with full_name := v }
  | .hashed_password v => { u with hashed_password := v }
  | .is_active v => { u with is_active := v }
  | .is_verified v => { u with is_verified := v }
  | .is_superuser v => { u with is_superuser := v }
  | .last_login v => { u with last_login := v }
  | .unknown _ => u

namespace UserRepository

/-- `BaseRepository.get`: first row whose `id` matches. -/
def get (db : DB) (id : Nat) : Option User :=
  db.find? (fun u => u.id == id)

/-- `UserRepository.get_by_email`. -/
def get_by_email (db : DB) (email : String) : Option User :=
  db.find? (fun u => u.email == email)

/-- `UserRepository.get_by_username`. -/
def get_by_username (db : DB) (username : String) : Option User :=
  db.find? (fun u => u.username == username)

/-- `UserRepository.email_exists`. -/
def email_exists (db : DB) (email : String) : Bool :=
  (get_by_email db email).isSome

/-- `UserRepository.username_exists`. -/
def username_exists (db : DB) (username : String) : Bool :=
  (get_by_username db username).isSome

/-- The row an update commit stores: the `setattr`s are applied, and when
the row actually changed the flush emits an UPDATE statement which also
fires the `updated_at` column's `onupdate=datetime.utcnow` default
(`models/base.py` line 19), stamping the commit instant; a commit with no
net change emits no UPDATE and leaves `updated_at` alone. -/
def commitRow (u : User) (obj_in : List FieldVal) (now : Nat) : User :=
  if obj_in.foldl setAttr u = u then u
  else { obj_in.foldl setAttr u with updated_at := now }

/-- `BaseRepository.update`: fetch the row by id; if present, apply each
given field with `setAttr` and commit at instant `now` — an effective
update also bumps `updated_at` via the ORM's `onupdate` (see `commitRow`)
— returning the updated row and the updated table; if absent, return
`none` and the table unchanged. -/
def update (db : DB) (id : Nat) (obj_in : List FieldVal) (now : Nat) :
    Option User × DB :=
  match get db id with
  | none => (none, db)
  | some u =>
      (some (commitRow u obj_in now),
        db.map (fun w => if w.id == id then commitRow u obj_in now else w))

/-- `BaseRepository.delete`: `False` if the row is absent, else remove it
and return `True`. -/
def delete (db : DB) (id : Nat) : Bool × DB :=
  match get db id with
  | none => (false, db)
  | some _ => (true, db.filter (fun w => w.id != id))

/-- `UserRepository.update_last_login`: the same `utcnow` instant supplies
the `last_login` value and the `onupdate` bump. -/
def update_last_login (db : DB) (id : Nat) (now : Nat) : Option User × DB :=
  update db id [.last_login (some now)] now

/-- `UserRepository.deactivate_user`: sets `is_active` to `False`. -/
def deactivate_user (db : DB) (id : Nat) (now : Nat) : Option User × DB :=
  update db id [.is_active false] now

/-- `UserRepository.activate_user`: sets `is_active` to `True`. -/
def activate_user (db : DB) (id : Nat) (now : Nat) : Option User × DB :=
  update db id [.is_active true] now

/-- `UserRepository.verify_user`: sets `is_verified` to `True` (there is
no repository operation that sets it back to `False`). -/
def verify_user (db : DB) (id : Nat) (now : Nat) : Option User × DB :=
  update db id [.is_verified true] now

end UserRepository

/-- Security-relevant settings (`core/config.py` `Settings`), at their
declared defaults. -/
structure Settings where
  secret_key : String
  algorithm : String
  access_token_expire_minutes : Nat
deriving Repr, DecidableEq

/-- The global `settings` instance with the defaults from `core/config.py`. -/
def settings : Settings :=
  { secret_key := "your-secret-key-change-in-production"
    algorithm := "HS256"
    access_token_expire_minutes := 30 }

/-- Payload of a JWT as used by this backend: the `sub` and `email` claims
(absent when the key is missing from the payload) and the absolute expiry
instant `exp` in seconds. The backend writes `sub` as the decimal string of
the user id and pydantic parses it back to an integer; that decimal
encoding is a bijection on `Nat`, so the claim is carried here directly as
a `Nat`. -/
structure Claims where
  sub : Option Nat
  email : Option String
  exp : Nat
deriving Repr, DecidableEq

/-- Model of the HMAC-SHA256 signature over a payload under a secret, as
computed by `jose.jwt.encode` with algorithm HS256. Any concrete function
of the secret and the payload serves: verification only ever compares a
token's signature field against the value of this function. -/
def jwtSign (secret : String) (c : Claims) : String :=
  "HS256:" ++ secret ++ ":"
    ++ (match c.sub with | some n => "s" ++ Nat.repr n | none => "n") ++ ":"
    ++ (match c.email with | some e => "s" ++ e | none => "n") ++ ":"
    ++ Nat.repr c.exp

/-- A signed token: payload plus signature trailer. -/
structure JWT where
  claims : Claims
  sig : String
deriving Repr, DecidableEq

/-- `jose.jwt.encode`: sign the payload with the secret. -/
def jwtEncode (secret : String) (c : Claims) : JWT :=
  { claims := c, sig := jwtSign secret c }

/-- `jose.jwt.decode`: reject (raise `JWTError`, here `none`) when the
signature does not match the secret, or when the `exp` claim lies strictly
in the past (`jose` raises `ExpiredSignatureError` exactly when
`exp < now`, with zero leeway). -/
def jwtDecode (secret : String) (now : Nat) (t : JWT) : Option Claims :=
  if t.sig == jwtSign secret t.claims then
    if t.claims.exp < now then none else some t.claims
  else none

/-- `schemas/user.py` `TokenData`. -/
structure TokenData where
  user_id : Option Nat
  email : Option String
deriving Repr, DecidableEq

/-- `schemas/user.py` `Token`. The `access_token` is carried as the
structured `JWT` rather than its base64 wire form (a bijection). -/
structure Token where
  access_token : JWT
  token_type : String
  expires_in : Nat
deriving Repr, DecidableEq

/-- `schemas/user.py` `UserLogin`: the login request model declares THREE
required fields — `email`, `password` and `confirm_password`. -/
structure UserLogin where
  email : String
  password : String
  confirm_password : String
deriving Repr, DecidableEq

/-- `schemas/user.py` `UserUpdate`: every field optional; pydantic's
`exclude_unset` distinguishes absent fields (outer `none` here) from
present ones, and a present field may carry an explicit null (inner
`none`), which the model accepts and `dict(exclude_unset=True)` passes
through to the repository. `is_verified` is NOT among the updatable
fields. -/
structure UserUpdate where
  email : Option (Option String)
  username : Option (Option String)
  full_name : Option (Option String)
  is_active : Option (Option Bool)
deriving Repr, DecidableEq

/-- A present-but-null value for one of the NOT NULL columns `email`,
`username`, `is_active` (`models/user.py` lines 16-22): the repository's
`setattr` accepts it but the commit then violates the column constraint
and raises `IntegrityError`, leaving no durable write. -/
def UserUpdate.hasNotNullViolation (d : UserUpdate) : Bool :=
  d.email == some none || d.username == some none || d.is_active == some none

/-- `schemas/user.py` `UserResponse` (with `BaseResponseSchema` giving
`id`, `created_at`, `updated_at`): the response shape for every endpoint
that returns a user. It has no `hashed_password` field. -/
structure UserResponse where
  id : Nat
  created_at : Nat
  updated_at : Nat
  email : String
  username : String
  full_name : Option String
  is_active : Bool
  is_verified : Bool
  last_login : Option Nat
deriving Repr, DecidableEq

/-- `UserResponse.from_orm`: project an ORM row onto the response shape. -/
def UserResponse.from_orm (u : User) : UserResponse :=
  { id := u.id
    created_at := u.created_at
    updated_at := u.updated_at
    email := u.email
    username := u.username
    full_name := u.full_name
    is_active := u.is_active
    is_verified := u.is_verified
    last_login := u.last_login }

/-- JSON scalar, for serialized response bodies. -/
inductive JsonVal where
  | str (s : String)
  | num (n : Nat)
  | boolean (b : Bool)
  | null
deriving Repr, DecidableEq

/-- Serialize an optional string field to JSON. -/
def jsonOfOptStr : Option String → JsonVal
  | some s => .str s
  | none => .null

/-- Serialize an optional numeric field to JSON. -/
def jsonOfOptNum : Option Nat → JsonVal
  | some n => .num n
  | none => .null

/-- The JSON object a `UserResponse` serializes to, as the ordered list of
its field name/value pairs (pydantic emits exactly the declared fields). -/
def UserResponse.serialize (r : UserResponse) : List (String × JsonVal) :=
  [("id", .num r.id), ("created_at", .num r.created_at),
   ("updated_at", .num r.updated_at), ("email", .str r.email),
   ("username", .str r.username), ("full_name", jsonOfOptStr r.full_name),
   ("is_active", .boolean r.is_active),
   ("is_verified", .boolean r.is_verified),
   ("last_login", jsonOfOptNum r.last_login)]

namespace AuthService

/-- Model of the passlib bcrypt contract used by
`AuthService.get_password_hash` (`services/auth.py`): an irreversible tag
of the plaintext. The salt and cost factor are elided; what the claims use
is that verification succeeds exactly against the hash of the same
plaintext, which is the library's contract. -/
def get_password_hash (password : String) : String :=
  "bcrypt$" ++ password

/-- `AuthService.verify_password` via `pwd_context.verify`: true exactly
when the stored hash is the hash of the offered plaintext. -/
def verify_password (plain_password hashed_password : String) : Bool :=
  hashed_password == get_password_hash plain_password

/-- `AuthService.authenticate_user`: `None` when the email matches no row
or the password fails verification against the stored hash; the row
otherwise. The `is_active` flag is never consulted. -/
def authenticate_user (db : DB) (email password : String) : Option User :=
  match UserRepository.get_by_email db email with
  | none => none
  | some user =>
      if verify_password password user.hashed_password then some user
      else none

/-- `AuthService.create_access_token`: copy the payload, add an `exp` of
now plus the given delta (default: `access_token_expire_minutes`), sign
with the server secret. Call sites pass `sub` and `email`. -/
def create_access_token (now : Nat) (sub : Option Nat)
    (email : Option String) (expires_delta : Option Nat) : JWT :=
  let expire := match expires_delta with
    | some d => now + d
    | none => now + settings.access_token_expire_minutes * 60
  jwtEncode settings.secret_key { sub := sub, email := email, exp := expire }

/-- `AuthService.verify_token`: decode under the server secret (failure on
signature mismatch or elapsed expiry yields `None`), then require both the
`sub` and `email` claims to be present. -/
def verify_token (now : Nat) (token : JWT) : Option TokenData :=
  match jwtDecode settings.secret_key now token with
  | none => none
  | some payload =>
      match payload.sub, payload.email with
      | some uid, some e => some { user_id := some uid, email := some e }
      | _, _ => none

/-- `AuthService.get_current_user` (service level): verify the token, then
load the user by the embedded id; `None` if either step fails. -/
def get_current_user (db : DB) (now : Nat) (token : JWT) : Option User :=
  match verify_token now token with
  | none => none
  | some token_data =>
      match token_data.user_id with
      | none => none
      | some uid => UserRepository.get db uid

/-- `AuthService.login`: authenticate, stamp `last_login`, issue a token
whose `sub` is the user id and whose expiry is
`access_token_expire_minutes` from now; `None` on authentication failure. -/
def login (db : DB) (now : Nat) (user_credentials : UserLogin) :
    Option (Token × DB) :=
  match authenticate_user db user_credentials.email
      user_credentials.password with
  | none => none
  | some user =>
      let db2 := (UserRepository.update_last_login db user.id now).2
      let access_token := create_access_token now (some user.id)
        (some user.email) (some (settings.access_token_expire_minutes * 60))
      some ({ access_token := access_token
              token_type := "bearer"
              expires_in := settings.access_token_expire_minutes * 60 }, db2)

/-- `AuthService.is_active_user`. -/
def is_active_user (user : User) : Bool :=
  user.is_active

/-- `AuthService.is_superuser`. -/
def is_superuser (user : User) : Bool :=
  user.is_superuser && user.is_active

end AuthService

/-- The field map `UserUpdate.dict(exclude_unset=True)` hands to
`BaseRepository.update`: exactly the fields present in the partial input,
in declaration order. Explicit nulls for the non-nullable columns never
reach this point: they abort the commit with `IntegrityError` first (see
`UserUpdate.hasNotNullViolation`); an explicit null `full_name` is a
legitimate write (nullable column). -/
def UserUpdate.toFields (d : UserUpdate) : List FieldVal :=
  (match d.email with | some (some e) => [FieldVal.email e] | _ => [])
  ++ (match d.username with
      | some (some s) => [FieldVal.username s] | _ => [])
  ++ (match d.full_name with | some f => [FieldVal.full_name f] | none => [])
  ++ (match d.is_active with
      | some (some b) => [FieldVal.is_active b] | _ => [])

/-- The data fields that result from applying a partial update: present
fields overwritten, absent fields preserved (specification of the effect
of `UserUpdate.toFields` under `setAttr`, proved equal below). -/
def applyUpd (u : User) (d : UserUpdate) : User :=
  { u with
    email := match d.email with | some (some e) => e | _ => u.email
    username := match d.username with | some (some s) => s | _ => u.username
    full_name := match d.full_name with | some f => f | none => u.full_name
    is_active := match d.is_active with
      | some (some b) => b | _ => u.is_active }

/-- The stored record after a successful partial update: the data fields
of `applyUpd`, with `updated_at` bumped to the commit instant exactly when
the update effects a change (the ORM's `onupdate`). -/
def applyUpdCommitted (u : User) (d : UserUpdate) (now : Nat) : User :=
  if applyUpd u d = u then u else { applyUpd u d with updated_at := now }

/-- Failure modes of `UserService.update_user`: the service's own
`ValueError` (caught by the handler and mapped to 400), and the
database's `IntegrityError` on a NOT NULL violation at commit, which no
layer catches, so the generic exception handler in `main.py` turns it
into a 500 response. -/
inductive UpdateFailure where
  | valueError (msg : String)
  | integrityError
deriving Repr, DecidableEq

namespace UserService

/-- `UserService.update_user`: `none` (`.ok none`) when the user is
absent; `ValueError` when a present, truthy email or username differs
from the current value and is already taken (the python truthiness test
`if user_data.email and ...` is the non-null, nonempty check); then the
repository applies exactly the set fields and commits — a present-but-null
value for a NOT NULL column makes that commit raise `IntegrityError` with
no durable write. -/
def update_user (db : DB) (user_id : Nat) (user_data : UserUpdate)
    (now : Nat) : Except UpdateFailure (Option (UserResponse × DB)) :=
  match UserRepository.get db user_id with
  | none => .ok none
  | some user =>
      if (match user_data.email with
          | some (some e) => e != "" && e != user.email
              && UserRepository.email_exists db e
          | _ => false) then
        .error (.valueError "Email already registered")
      else if (match user_data.username with
          | some (some s) => s != "" && s != user.username
              && UserRepository.username_exists db s
          | _ => false) then
        .error (.valueError "Username already taken")
      else if user_data.hasNotNullViolation then
        .error .integrityError
      else
        match UserRepository.update db user_id user_data.toFields now with
        | (some u2, db2) => .ok (some (UserResponse.from_orm u2, db2))
        | (none, _) => .ok none

/-- `UserService.delete_user`. -/
def delete_user (db : DB) (user_id : Nat) : Bool × DB :=
  UserRepository.delete db user_id

/-- `UserService.deactivate_user`. -/
def deactivate_user (db : DB) (user_id : Nat) (now : Nat) :
    Option UserResponse × DB :=
  match UserRepository.deactivate_user db user_id now with
  | (some u, db2) => (some (UserResponse.from_orm u), db2)
  | (none, db2) => (none, db2)

/-- `UserService.activate_user`. -/
def activate_user (db : DB) (user_id : Nat) (now : Nat) :
    Option UserResponse × DB :=
  match UserRepository.activate_user db user_id now with
  | (some u, db2) => (some (UserResponse.from_orm u), db2)
  | (none, db2) => (none, db2)

/-- `UserService.verify_user`. -/
def verify_user (db : DB) (user_id : Nat) (now : Nat) :
    Option UserResponse × DB :=
  match UserRepository.verify_user db user_id now with
  | (some u, db2) => (some (UserResponse.from_orm u), db2)
  | (none, db2) => (none, db2)

end UserService

/-- An HTTP response: status code, optional body, optional detail
message (FastAPI puts `HTTPException.detail` and success messages in the
JSON `detail`/`message` field). -/
structure Response (α : Type) where
  status : Nat
  body : Option α
  detail : Option String
deriving Repr, DecidableEq

/-- Request body offered to `POST /auth/login` before pydantic
validation: each `UserLogin` field may be present or missing. -/
structure LoginBody where
  email : Option String
  password : Option String
  confirm_password : Option String
deriving Repr, DecidableEq

/-- Pydantic validation of the `UserLogin` request model: all three
declared required fields — `email`, `password`, AND `confirm_password` —
must be present, else FastAPI responds 422 before the handler runs. -/
def parseUserLogin (b : LoginBody) : Option UserLogin :=
  match b.email, b.password, b.confirm_password with
  | some e, some p, some c =>
      some { email := e, password := p, confirm_password := c }
  | _, _, _ => none

namespace Routes

/-- `routes/v1/auth.py` `login` handler including the pydantic boundary:
422 on a body missing a required `UserLogin` field, else
`AuthService.login`; `None` maps to 401 "Incorrect email or password",
success to 200 with the token. -/
def login (db : DB) (now : Nat) (body : LoginBody) : Response Token × DB :=
  match parseUserLogin body with
  | none => ({ status := 422, body := none
               detail := some "Field required" }, db)
  | some creds =>
      match AuthService.login db now creds with
      | none => ({ status := 401, body := none
                   detail := some "Incorrect email or password" }, db)
      | some (token, db2) =>
          ({ status := 200, body := some token, detail := none }, db2)

/-- `routes/v1/auth.py` `get_current_user` dependency: 401 "Could not
validate credentials" when the token does not resolve to a user, then 400
"Inactive user" when the resolved user is not active, else the user
response. -/
def get_current_user (db : DB) (now : Nat) (token : JWT) :
    Except (Nat × String) UserResponse :=
  match AuthService.get_current_user db now token with
  | none => .error (401, "Could not validate credentials")
  | some user =>
      if !(AuthService.is_active_user user) then
        .error (400, "Inactive user")
      else
        .ok (UserResponse.from_orm user)

/-- `GET /auth/me` (`get_current_user_info`): the dependency's rejection,
or 200 with the current user. -/
def auth_me (db : DB) (now : Nat) (token : JWT) : Response UserResponse :=
  match get_current_user db now token with
  | .error (s, d) => { status := s, body := none, detail := some d }
  | .ok u => { status := 200, body := some u, detail := none }

/-- `PUT /users/me` (`update_my_profile`): update the authenticated
user's own record; the handler catches `ValueError` (400), maps an absent
user to 404, and lets `IntegrityError` escape to the generic exception
handler (500 "Internal server error", nothing committed). The handler
applies whatever fields the `UserUpdate` body carries — including
`is_active` — with no superuser check and no self-protection guard. -/
def update_my_profile (db : DB) (current_user : UserResponse)
    (user_data : UserUpdate) (now : Nat) : Response UserResponse × DB :=
  match UserService.update_user db current_user.id user_data now with
  | .error (.valueError msg) =>
      ({ status := 400, body := none, detail := some msg }, db)
  | .error .integrityError =>
      ({ status := 500, body := none
         detail := some "Internal server error" }, db)
  | .ok none => ({ status := 404, body := none
                   detail := some "User not found" }, db)
  | .ok (some (r, db2)) =>
      ({ status := 200, body := some r, detail := none }, db2)

/-- `PUT /users/{user_id}` (`update_user`, superuser): same service call
against an arbitrary target id. -/
def update_user (db : DB) (user_id : Nat) (user_data : UserUpdate)
    (now : Nat) : Response UserResponse × DB :=
  match UserService.update_user db user_id user_data now with
  | .error (.valueError msg) =>
      ({ status := 400, body := none, detail := some msg }, db)
  | .error .integrityError =>
      ({ status := 500, body := none
         detail := some "Internal server error" }, db)
  | .ok none => ({ status := 404, body := none
                   detail := some "User not found" }, db)
  | .ok (some (r, db2)) =>
      ({ status := 200, body := some r, detail := none }, db2)

/-- `DELETE /users/{user_id}` (`delete_user`, superuser): 400 "Cannot
delete your own account" when the target is the caller, before any
service call; else 404 when absent, 200 "User deleted successfully" when
removed. -/
def delete_user (db : DB) (current_user : UserResponse) (user_id : Nat) :
    Response Unit × DB :=
  if current_user.id == user_id then
    ({ status := 400, body := none
       detail := some "Cannot delete your own account" }, db)
  else
    match UserService.delete_user db user_id with
    | (false, _) => ({ status := 404, body := none
                       detail := some "User not found" }, db)
    | (true, db2) => ({ status := 200, body := some ()
                        detail := some "User deleted successfully" }, db2)

/-- `POST /users/{user_id}/activate` (superuser): no self-guard. -/
def activate_user (db : DB) (user_id : Nat) (now : Nat) :
    Response UserResponse × DB :=
  match UserService.activate_user db user_id now with
  | (none, _) => ({ status := 404, body := none
                    detail := some "User not found" }, db)
  | (some r, db2) => ({ status := 200, body := some r, detail := none }, db2)

/-- `POST /users/{user_id}/deactivate` (superuser): 400 "Cannot
deactivate your own account" when the target is the caller, before any
service call. -/
def deactivate_user (db : DB) (current_user : UserResponse)
    (user_id : Nat) (now : Nat) : Response UserResponse × DB :=
  if current_user.id == user_id then
    ({ status := 400, body := none
       detail := some "Cannot deactivate your own account" }, db)
  else
    match UserService.deactivate_user db user_id now with
    | (none, _) => ({ status := 404, body := none
                      detail := some "User not found" }, db)
    | (some r, db2) =>
        ({ status := 200, body := some r, detail := none }, db2)

/-- `POST /users/{user_id}/verify` (superuser): no self-guard, and the
only direction offered is setting `is_verified` to `True`. -/
def verify_user (db : DB) (user_id : Nat) (now : Nat) :
    Response UserResponse × DB :=
  match UserService.verify_user db user_id now with
  | (none, _) => ({ status := 404, body := none
                    detail := some "User not found" }, db)
  | (some r, db2) => ({ status := 200, body := some r, detail := none }, db2)

/-- `routes/v1/auth.py` `get_current_superuser` dependency, modelled
faithfully: after the inner `get_current_user` succeeds, the source reads
`current_user.is_superuser` — but `UserResponse` declares no
`is_superuser` field (`schemas/user.py` lines 77-78 declare `is_verified`
twice where `is_superuser` was evidently intended), so pydantic raises
`AttributeError` on every request that reaches this point, and the
application's generic exception handler (`main.py`
`general_exception_handler`) converts it to a 500 "Internal server error"
response. The dependency can therefore never yield a user. -/
def get_current_superuser (db : DB) (now : Nat) (token : JWT) :
    Except (Nat × String) UserResponse :=
  match get_current_user db now token with
  | .error e => .error e
  | .ok _ => .error (500, "Internal server error")

/-- `DELETE /users/{user_id}` end to end: the `get_current_superuser`
dependency gate runs before the handler body. -/
def delete_user_endpoint (db : DB) (now : Nat) (token : JWT)
    (user_id : Nat) : Response Unit × DB :=
  match get_current_superuser db now token with
  | .error (s, d) => ({ status := s, body := none, detail := some d }, db)
  | .ok current_user => delete_user db current_user user_id

/-- `POST /users/{user_id}/deactivate` end to end: the
`get_current_superuser` dependency gate runs before the handler body. -/
def deactivate_user_endpoint (db : DB) (now : Nat) (token : JWT)
    (user_id : Nat) : Response UserResponse × DB :=
  match get_current_superuser db now token with
  | .error (s, d) => ({ status := s, body := none, detail := some d }, db)
  | .ok current_user => deactivate_user db current_user user_id now

end Routes

/-- One invocation of a user-management operation a superuser can reach
through the exposed endpoints against some target id (`routes/v1/users.py`). -/
inductive AdminOp where
  | activate (user_id : Nat)
  | deactivate (user_id : Nat)
  | verify (user_id : Nat)
  | updateUser (user_id : Nat) (body : UserUpdate)
  | deleteUser (user_id : Nat)
deriving Repr

/-- Database state after a superuser `current_user` performs the
operation through the corresponding route handler at instant `now`. -/
def applyAdminOp (db : DB) (current_user : UserResponse) (now : Nat) :
    AdminOp → DB
  | .activate uid => (Routes.activate_user db uid now).2
  | .deactivate uid => (Routes.deactivate_user db current_user uid now).2
  | .verify uid => (Routes.verify_user db uid now).2
  | .updateUser uid body => (Routes.update_user db uid body now).2
  | .deleteUser uid => (Routes.delete_user db current_user uid).2

theorem setAttr_id (u : User) (f : FieldVal) : (setAttr u f).id = u.id := by
  cases f <;> rfl

theorem setAttr_idem (u : User) (f : FieldVal) :
    setAttr (setAttr u f) f = setAttr u f := by
  cases f <;> rfl

theorem foldl_setAttr_id (fs : List FieldVal) (u : User) :
    (fs.foldl setAttr u).id = u.id := by
  induction fs generalizing u with
  | nil => rfl
  | cons f fs ih => rw [List.foldl_cons, ih, setAttr_id]

namespace UserRepository

theorem get_some_id {db : DB} {uid : Nat} {u : User}
    (h : get db uid = some u) : u.id = uid := by
  have := List.find?_some h
  simpa using this

theorem get_replace_self {db : DB} {uid : Nat} {u : User} (u2 : User)
    (h : get db uid = some u) (h2 : u2.id = uid) :
    get (db.map fun w => if w.id == uid then u2 else w) uid = some u2 := by
  induction db with
  | nil => simp [get] at h
  | cons w ws ih =>
      by_cases hw : w.id = uid
      · simp [get, List.map_cons, hw, h2]
      · rw [get, List.map_cons, if_neg (by simpa using hw),
          List.find?_cons_of_neg _ (by simpa using hw)]
        rw [get, List.find?_cons_of_neg _ (by simpa using hw)] at h
        exact ih h

theorem get_replace_other {db : DB} {uid vid : Nat} {u2 : User}
    (h2 : u2.id = uid) (hne : vid ≠ uid) :
    get (db.map fun w => if w.id == uid then u2 else w) vid = get db vid := by
  induction db with
  | nil => rfl
  | cons w ws ih =>
      by_cases hw : w.id = uid
      · have hwv : ¬ w.id = vid := by rw [hw]; exact fun hc => hne hc.symm
        have hu2v : ¬ u2.id = vid := by rw [h2]; exact fun hc => hne hc.symm
        rw [get, List.map_cons, if_pos (by simpa using hw),
          List.find?_cons_of_neg _ (by simpa using hu2v)]
        rw [get, List.find?_cons_of_neg _ (by simpa using hwv)]
        exact ih
      · rw [get, List.map_cons, if_neg (by simpa using hw)]
        by_cases hwv : w.id = vid
        · rw [List.find?_cons_of_pos _ (by simpa using hwv), get,
            List.find?_cons_of_pos _ (by simpa using hwv)]
        · rw [List.find?_cons_of_neg _ (by simpa using hwv), get,
            List.find?_cons_of_neg _ (by simpa using hwv)]
          exact ih

theorem map_replace_idem (db : DB) (uid : Nat) (u2 : User) :
    ((db.map fun w => if w.id == uid then u2 else w).map
        fun w => if w.id == uid then u2 else w)
      = db.map fun w => if w.id == uid then u2 else w := by
  rw [List.map_map]
  refine List.map_congr_left fun w _ => ?_
  by_cases hw : w.id = uid
  · simp [Function.comp, hw]
  · simp [Function.comp, hw]

theorem get_filter_self (db : DB) (uid : Nat) :
    get (db.filter fun w => w.id != uid) uid = none := by
  induction db with
  | nil => rfl
  | cons w ws ih =>
      by_cases hw : w.id = uid
      · rw [get, List.filter_cons, if_neg (by simp [hw])]
        exact ih
      · rw [get, List.filter_cons, if_pos (by simpa using hw),
          List.find?_cons_of_neg _ (by simpa using hw)]
        exact ih

theorem get_filter_other (db : DB) (uid vid : Nat) (hne : vid ≠ uid) :
    get (db.filter fun w => w.id != uid) vid = get db vid := by
  induction db with
  | nil => rfl
  | cons w ws ih =>
      by_cases hw : w.id = uid
      · have hwv : ¬ w.id = vid := by rw [hw]; exact fun hc => hne hc.symm
        rw [get, List.filter_cons, if_neg (by simp [hw])]
        rw [get, List.find?_cons_of_neg _ (by simpa using hwv)]
        exact ih
      · rw [get, List.filter_cons, if_pos (by simpa using hw)]
        by_cases hwv : w.id = vid
        · rw [get, List.find?_cons_of_pos _ (by simpa using hwv),
            List.find?_cons_of_pos _ (by simpa using hwv)]
        · rw [get, List.find?_cons_of_neg _ (by simpa using hwv),
            List.find?_cons_of_neg _ (by simpa using hwv)]
          exact ih

theorem setAttr_updated_at_comm (u : User) (f : FieldVal) (n : Nat) :
    setAttr { u with updated_at := n } f
      = { setAttr u f with updated_at := n } := by
  cases f <;> rfl

theorem commitRow_of_fix {u : User} {fs : List FieldVal} (now : Nat)
    (h : fs.foldl setAttr u = u) : commitRow u fs now = u := by
  unfold commitRow
  rw [if_pos h]

theorem commitRow_cases (u : User) (fs : List FieldVal) (now : Nat) :
    commitRow u fs now = fs.foldl setAttr u
    ∨ commitRow u fs now = { fs.foldl setAttr u with updated_at := now } := by
  unfold commitRow
  split
  case isTrue h => exact Or.inl h.symm
  case isFalse h => exact Or.inr rfl

theorem commitRow_id (u : User) (fs : List FieldVal) (now : Nat) :
    (commitRow u fs now).id = u.id := by
  rcases commitRow_cases u fs now with h | h <;> rw [h]
  · rw [foldl_setAttr_id]
  · show (fs.foldl setAttr u).id = u.id
    rw [foldl_setAttr_id]

theorem commitRow_is_verified (u : User) (fs : List FieldVal) (now : Nat) :
    (commitRow u fs now).is_verified = (fs.foldl setAttr u).is_verified := by
  rcases commitRow_cases u fs now with h | h <;> rw [h]

theorem commitRow_is_active (u : User) (fs : List FieldVal) (now : Nat) :
    (commitRow u fs now).is_active = (fs.foldl setAttr u).is_active := by
  rcases commitRow_cases u fs now with h | h <;> rw [h]

theorem update_absent {db : DB} {uid : Nat} (fs : List FieldVal) (now : Nat)
    (h : get db uid = none) : update db uid fs now = (none, db) := by
  simp [update, h]

theorem update_present {db : DB} {uid : Nat} {u : User} (fs : List FieldVal)
    (now : Nat) (h : get db uid = some u) :
    update db uid fs now = (some (commitRow u fs now),
      db.map fun w => if w.id == uid then commitRow u fs now else w) := by
  simp [update, h]

theorem get_update_self {db : DB} {uid : Nat} {u : User} (fs : List FieldVal)
    (now : Nat) (h : get db uid = some u) :
    get (update db uid fs now).2 uid = some (commitRow u fs now) := by
  rw [update_present fs now h]
  exact get_replace_self _ h (by rw [commitRow_id]; exact get_some_id h)

theorem get_update_other {db : DB} {uid vid : Nat} (fs : List FieldVal)
    (now : Nat) (hne : vid ≠ uid) :
    get (update db uid fs now).2 vid = get db vid := by
  cases hgu : get db uid with
  | none => rw [update_absent fs now hgu]
  | some u =>
      rw [update_present fs now hgu]
      exact get_replace_other
        (by rw [commitRow_id]; exact get_some_id hgu) hne

theorem update_single_idem (db : DB) (uid : Nat) (f : FieldVal)
    (n1 n2 : Nat) :
    (update (update db uid [f] n1).2 uid [f] n2).2
      = (update db uid [f] n1).2 := by
  cases hg : get db uid with
  | none => rw [update_absent [f] n1 hg, update_absent [f] n2 hg]
  | some u =>
      have hget2 : get (update db uid [f] n1).2 uid
          = some (commitRow u [f] n1) := get_update_self [f] n1 hg
      have hsa : setAttr (commitRow u [f] n1) f = commitRow u [f] n1 := by
        unfold commitRow
        split
        case isTrue h => exact h
        case isFalse h =>
          rw [setAttr_updated_at_comm]
          exact congrArg (fun w => { w with updated_at := n1 })
            (setAttr_idem u f)
      have hfix : commitRow (commitRow u [f] n1) [f] n2
          = commitRow u [f] n1 := commitRow_of_fix n2 hsa
      rw [update_present [f] n2 hget2, hfix]
      have hdb1 : (update db uid [f] n1).2
          = db.map fun w => if w.id == uid then commitRow u [f] n1 else w := by
        rw [update_present [f] n1 hg]
      rw [hdb1]
      exact map_replace_idem db uid (commitRow u [f] n1)

end UserRepository

theorem toFields_foldl (d : UserUpdate) (u : User) :
    d.toFields.foldl setAttr u = applyUpd u d := by
  obtain ⟨e, s, f, a⟩ := d
  rcases e with _ | (_ | e) <;> rcases s with _ | (_ | s) <;>
    rcases f with _ | f <;> rcases a with _ | (_ | a) <;>
      simp [UserUpdate.toFields, applyUpd, setAttr]

theorem commitRow_toFields (u : User) (d : UserUpdate) (now : Nat) :
    UserRepository.commitRow u d.toFields now = applyUpdCommitted u d now := by
  unfold UserRepository.commitRow applyUpdCommitted
  rw [toFields_foldl]

theorem applyUpd_is_verified (u : User) (d : UserUpdate) :
    (applyUpd u d).is_verified = u.is_verified := rfl

theorem applyUpd_id (u : User) (d : UserUpdate) :
    (applyUpd u d).id = u.id := rfl

theorem applyUpd_hashed_password (u : User) (d : UserUpdate) :
    (applyUpd u d).hashed_password = u.hashed_password := rfl

theorem get_by_email_some_email {db : DB} {e : String} {w : User}
    (h : UserRepository.get_by_email db e = some w) : w.email = e := by
  have := List.find?_some h
  simpa using this

theorem email_exists_elim {db : DB} {e : String}
    (h : UserRepository.email_exists db e = true) :
    ∃ w, UserRepository.get_by_email db e = some w ∧ w.email = e := by
  unfold UserRepository.email_exists at h
  cases hw : UserRepository.get_by_email db e with
  | none => rw [hw] at h; simp at h
  | some w => exact ⟨w, rfl, get_by_email_some_email hw⟩

theorem get_by_username_some {db : DB} {s : String} {w : User}
    (h : UserRepository.get_by_username db s = some w) : w.username = s := by
  have := List.find?_some h
  simpa using this

theorem username_exists_elim {db : DB} {s : String}
    (h : UserRepository.username_exists db s = true) :
    ∃ w, UserRepository.get_by_username db s = some w ∧ w.username = s := by
  unfold UserRepository.username_exists at h
  cases hw : UserRepository.get_by_username db s with
  | none => rw [hw] at h; simp at h
  | some w => exact ⟨w, rfl, get_by_username_some hw⟩

namespace UserService

theorem update_user_absent {db : DB} {uid : Nat} (d : UserUpdate)
    (now : Nat) (h : UserRepository.get db uid = none) :
    update_user db uid d now = .ok none := by
  simp [update_user, h]

theorem update_user_ok_some {db : DB} {uid : Nat} {d : UserUpdate}
    {now : Nat} {r : UserResponse} {db2 : DB}
    (h : update_user db uid d now = .ok (some (r, db2))) :
    ∃ u, UserRepository.get db uid = some u
      ∧ r = UserResponse.from_orm (applyUpdCommitted u d now)
      ∧ db2 = (UserRepository.update db uid d.toFields now).2 := by
  unfold update_user at h
  split at h
  case h_1 => exact absurd h (by simp)
  case h_2 user heq =>
    refine ⟨user, heq, ?_⟩
    split_ifs at h
    split at h
    next u2 db2' heq2 =>
      have hu := UserRepository.update_present (u := user) d.toFields now heq
      rw [heq2] at hu
      simp only [Prod.mk.injEq, Option.some.injEq] at hu
      simp only [Except.ok.injEq, Option.some.injEq, Prod.mk.injEq] at h
      refine ⟨?_, ?_⟩
      · rw [← h.1, hu.1, commitRow_toFields]
      · rw [← h.2, heq2]
    next => exact absurd h (by simp)

theorem update_user_error {db : DB} {uid : Nat} {d : UserUpdate}
    {now : Nat} {msg : String}
    (h : update_user db uid d now = .error (.valueError msg)) :
    ∃ u, UserRepository.get db uid = some u ∧
      ((msg = "Email already registered"
          ∧ ∃ e, d.email = some (some e) ∧ e ≠ u.email
              ∧ ∃ w, UserRepository.get_by_email db e = some w ∧ w ≠ u)
        ∨ (msg = "Username already taken"
          ∧ ∃ s, d.username = some (some s) ∧ s ≠ u.username
              ∧ ∃ w, UserRepository.get_by_username db s = some w ∧ w ≠ u)) := by
  unfold update_user at h
  split at h
  case h_1 => exact absurd h (by simp)
  case h_2 user heq =>
    refine ⟨user, heq, ?_⟩
    split_ifs at h with hc1 hc2 hc3
    · left
      rcases he : d.email with _ | (_ | e)
      · rw [he] at hc1; simp at hc1
      · rw [he] at hc1; simp at hc1
      · rw [he] at hc1
        simp only [Bool.and_eq_true, bne_iff_ne, ne_eq] at hc1
        obtain ⟨⟨_, hne⟩, hex⟩ := hc1
        obtain ⟨w, hw, hwe⟩ := email_exists_elim hex
        refine ⟨?_, e, rfl, hne, w, hw, ?_⟩
        · injection h with h1
          injection h1 with h2
          exact h2.symm
        · intro hwu
          exact hne (by rw [← hwe, hwu])
    · right
      rcases hs : d.username with _ | (_ | t)
      · rw [hs] at hc2; simp at hc2
      · rw [hs] at hc2; simp at hc2
      · rw [hs] at hc2
        simp only [Bool.and_eq_true, bne_iff_ne, ne_eq] at hc2
        obtain ⟨⟨_, hne⟩, hex⟩ := hc2
        obtain ⟨w, hw, hws⟩ := username_exists_elim hex
        refine ⟨?_, t, rfl, hne, w, hw, ?_⟩
        · injection h with h1
          injection h1 with h2
          exact h2.symm
        · intro hwu
          exact hne (by rw [← hws, hwu])
    · exact absurd h (by simp)
    · split at h
      · exact absurd h (by simp)
      · exact absurd h (by simp)

theorem update_user_integrity {db : DB} {uid : Nat} {d : UserUpdate}
    {now : Nat} (h : update_user db uid d now = .error .integrityError) :
    d.email = some none ∨ d.username = some none
      ∨ d.is_active = some none := by
  unfold update_user at h
  split at h
  case h_1 => exact absurd h (by simp)
  case h_2 user heq =>
    split_ifs at h with hc1 hc2 hc3
    · exact absurd h (by simp)
    · exact absurd h (by simp)
    · unfold UserUpdate.hasNotNullViolation at hc3
      simp only [Bool.or_eq_true, beq_iff_eq] at hc3
      rcases hc3 with (h1 | h1) | h1
      · exact Or.inl h1
      · exact Or.inr (Or.inl h1)
      · exact Or.inr (Or.inr h1)
    · split at h
      · exact absurd h (by simp)
      · exact absurd h (by simp)

end UserService

theorem update_preserves_verified {db : DB} (uid : Nat) (fs : List FieldVal)
    (now : Nat)
    (hfs : ∀ v : User, (fs.foldl setAttr v).is_verified = v.is_verified
        ∨ (fs.foldl setAttr v).is_verified = true)
    {vid : Nat} {u : User} (hget : UserRepository.get db vid = some u)
    (hver : u.is_verified = true) :
    (UserRepository.get (UserRepository.update db uid fs now).2 vid).map
        User.is_verified = some true := by
  by_cases hv : vid = uid
  · subst hv
    rw [UserRepository.get_update_self fs now hget]
    rcases hfs u with h | h
    · simp [UserRepository.commitRow_is_verified, h, hver]
    · simp [UserRepository.commitRow_is_verified, h]
  · rw [UserRepository.get_update_other fs now hv]
    simp [hget, hver]

theorem routes_activate_db (db : DB) (uid : Nat) (now : Nat) :
    (Routes.activate_user db uid now).2
      = (UserRepository.update db uid [.is_active true] now).2 := by
  unfold Routes.activate_user UserService.activate_user
    UserRepository.activate_user
  cases hg : UserRepository.get db uid with
  | none =>
      rw [UserRepository.update_absent [FieldVal.is_active true] now hg]
  | some u =>
      rw [UserRepository.update_present [FieldVal.is_active true] now hg]

theorem routes_verify_db (db : DB) (uid : Nat) (now : Nat) :
    (Routes.verify_user db uid now).2
      = (UserRepository.update db uid [.is_verified true] now).2 := by
  unfold Routes.verify_user UserService.verify_user UserRepository.verify_user
  cases hg : UserRepository.get db uid with
  | none =>
      rw [UserRepository.update_absent [FieldVal.is_verified true] now hg]
  | some u =>
      rw [UserRepository.update_present [FieldVal.is_verified true] now hg]

theorem routes_deactivate_db (db : DB) (cur : UserResponse) (uid : Nat)
    (now : Nat) :
    (Routes.deactivate_user db cur uid now).2 = db
    ∨ (Routes.deactivate_user db cur uid now).2
        = (UserRepository.update db uid [.is_active false] now).2 := by
  unfold Routes.deactivate_user
  by_cases hc : cur.id = uid
  · left; simp [hc]
  · right
    unfold UserService.deactivate_user UserRepository.deactivate_user
    cases hg : UserRepository.get db uid with
    | none =>
        rw [UserRepository.update_absent [FieldVal.is_active false] now hg]
        simp [hc]
    | some u =>
        rw [UserRepository.update_present [FieldVal.is_active false] now hg]
        simp [hc]

theorem routes_update_db (db : DB) (uid : Nat) (d : UserUpdate) (now : Nat) :
    (Routes.update_user db uid d now).2 = db
    ∨ (Routes.update_user db uid d now).2
        = (UserRepository.update db uid d.toFields now).2 := by
  cases he : UserService.update_user db uid d now with
  | error f =>
      cases f with
      | valueError msg => left; simp [Routes.update_user, he]
      | integrityError => left; simp [Routes.update_user, he]
  | ok o =>
      cases o with
      | none => left; simp [Routes.update_user, he]
      | some p =>
          obtain ⟨r, db2⟩ := p
          right
          obtain ⟨u, _, _, hdb⟩ := UserService.update_user_ok_some he
          simp [Routes.update_user, he, hdb]

theorem routes_delete_db (db : DB) (cur : UserResponse) (uid : Nat) :
    (Routes.delete_user db cur uid).2 = db
    ∨ (Routes.delete_user db cur uid).2
        = db.filter (fun w => w.id != uid) := by
  unfold Routes.delete_user
  by_cases hc : cur.id = uid
  · left; simp [hc]
  · unfold UserService.delete_user UserRepository.delete
    cases hg : UserRepository.get db uid with
    | none => left; simp [hc]
    | some u => right; simp [hc]

theorem apply_admin_op_preserves_verified (db : DB) (cur : UserResponse)
    (now : Nat) (op : AdminOp) (vid : Nat) {u : User}
    (hget : UserRepository.get db vid = some u)
    (hver : u.is_verified = true) :
    (UserRepository.get (applyAdminOp db cur now op) vid).map
        User.is_verified = some true
    ∨ UserRepository.get (applyAdminOp db cur now op) vid = none := by
  cases op with
  | activate uid =>
      left
      show (UserRepository.get (Routes.activate_user db uid now).2 vid).map
        User.is_verified = some true
      rw [routes_activate_db]
      exact update_preserves_verified uid [FieldVal.is_active true] now
        (fun v => Or.inl rfl) hget hver
  | verify uid =>
      left
      show (UserRepository.get (Routes.verify_user db uid now).2 vid).map
        User.is_verified = some true
      rw [routes_verify_db]
      exact update_preserves_verified uid [FieldVal.is_verified true] now
        (fun v => Or.inr rfl) hget hver
  | deactivate uid =>
      left
      show (UserRepository.get
        (Routes.deactivate_user db cur uid now).2 vid).map
        User.is_verified = some true
      rcases routes_deactivate_db db cur uid now with h | h
      · rw [h]; simp [hget, hver]
      · rw [h]
        exact update_preserves_verified uid [FieldVal.is_active false] now
          (fun v => Or.inl rfl) hget hver
  | updateUser uid d =>
      left
      show (UserRepository.get (Routes.update_user db uid d now).2 vid).map
        User.is_verified = some true
      rcases routes_update_db db uid d now with h | h
      · rw [h]; simp [hget, hver]
      · rw [h]
        refine update_preserves_verified uid d.toFields now
          (fun v => Or.inl ?_) hget hver
        rw [toFields_foldl]
        exact applyUpd_is_verified v d
  | deleteUser uid =>
      show (UserRepository.get (Routes.delete_user db cur uid).2 vid).map
          User.is_verified = some true
        ∨ UserRepository.get (Routes.delete_user db cur uid).2 vid = none
      rcases routes_delete_db db cur uid with h | h
      · left; rw [h]; simp [hget, hver]
      · by_cases hv : vid = uid
        · right; rw [h, hv]; exact UserRepository.get_filter_self db uid
        · left; rw [h, UserRepository.get_filter_other db uid vid hv]
          simp [hget, hver]

theorem get_current_user_error_cases {db : DB} {now : Nat} {token : JWT}
    {e : Nat × String}
    (h : Routes.get_current_user db now token = .error e) :
    e = (401, "Could not validate credentials")
      ∨ e = (400, "Inactive user") := by
  unfold Routes.get_current_user at h
  split at h
  · left
    injection h with h1
    exact h1.symm
  · split_ifs at h
    right
    injection h with h1
    exact h1.symm

theorem get_current_superuser_cases (db : DB) (now : Nat) (token : JWT) :
    Routes.get_current_superuser db now token
        = .error (401, "Could not validate credentials")
    ∨ Routes.get_current_superuser db now token
        = .error (400, "Inactive user")
    ∨ Routes.get_current_superuser db now token
        = .error (500, "Internal server error") := by
  unfold Routes.get_current_superuser
  cases hg : Routes.get_current_user db now token with
  | ok cu => right; right; rfl
  | error e =>
      rcases get_current_user_error_cases hg with h | h
      · left; rw [h]
      · right; left; rw [h]

/-- Sample regular active user for concrete instances. -/
def alice : User :=
  { id := 1, email := "alice@example.com", username := "alice"
    full_name := some "Alice"
    hashed_password := AuthService.get_password_hash "Passw0rd1"
    is_active := true, is_verified := false, is_superuser := false
    last_login := none, created_at := 0, updated_at := 0 }

/-- Sample superuser. -/
def adminUser : User :=
  { id := 2, email := "admin@example.com", username := "admin"
    full_name := none
    hashed_password := AuthService.get_password_hash "AdminPass1"
    is_active := true, is_verified := true, is_superuser := true
    last_login := none, created_at := 0, updated_at := 0 }

/-- Sample INACTIVE user. -/
def carol : User :=
  { id := 3, email := "carol@example.com", username := "carol"
    full_name := none
    hashed_password := AuthService.get_password_hash "CarolPass1"
    is_active := false, is_verified := true, is_superuser := false
    last_login := none, created_at := 0, updated_at := 0 }

/-- Sample verified user. -/
def bob : User :=
  { id := 4, email := "bob@example.com", username := "bob"
    full_name := none
    hashed_password := AuthService.get_password_hash "BobPass123"
    is_active := true, is_verified := true, is_superuser := false
    last_login := none, created_at := 0, updated_at := 0 }

/-- The test user of the repository's conftest fixtures. -/
def testUser : User :=
  { id := 1, email := "test@example.com", username := "testuser"
    full_name := some "Test User"
    hashed_password := AuthService.get_password_hash "TestPassword123"
    is_active := true, is_verified := false, is_superuser := false
    last_login := none, created_at := 0, updated_at := 0 }

/-- Table holding only the conftest test user. -/
def testDB : DB := [testUser]

/-- Table holding only the inactive user. -/
def dbInactive : DB := [carol]

/-- A valid server-issued token for the inactive user `carol`. -/
def tokCarol : JWT :=
  AuthService.create_access_token 0 (some 3) (some "carol@example.com")
    (some 60)

/-- C1 (amended): a request carrying a valid, non-expired token that
resolves to an existing but inactive user is rejected, but the rejection
status code is 400 with detail "Inactive user" (routes/v1/auth.py lines
46-50), not 401 or 403 as the original claim states. -/
theorem C1_inactive_user_rejected_400 :
    ∀ (db : DB) (now : Nat) (token : JWT) (u : User),
      AuthService.get_current_user db now token = some u →
      u.is_active = false →
      Routes.get_current_user db now token = .error (400, "Inactive user")
      ∧ Routes.auth_me db now token =
          { status := 400, body := none, detail := some "Inactive user" } := by
  intro db now token u h ha
  have hdep : Routes.get_current_user db now token
      = .error (400, "Inactive user") := by
    simp [Routes.get_current_user, h, AuthService.is_active_user, ha]
  exact ⟨hdep, by simp [Routes.auth_me, hdep]⟩

/-- C1 witness: the amended theorem at a concrete inactive user. -/
theorem C1_witness :
    Routes.get_current_user dbInactive 10 tokCarol
        = .error (400, "Inactive user")
    ∧ Routes.auth_me dbInactive 10 tokCarol
        = { status := 400, body := none, detail := some "Inactive user" } :=
  C1_inactive_user_rejected_400 dbInactive 10 tokCarol carol (by decide)
    (by decide)

/-- C1 counterexample to the original claim: a valid non-expired token for
an existing inactive user is rejected with status 400, which is neither
401 nor 403. -/
theorem C1_counterexample :
    AuthService.verify_token 10 tokCarol
        = some { user_id := some 3, email := some "carol@example.com" }
    ∧ UserRepository.get dbInactive 3 = some carol
    ∧ carol.is_active = false
    ∧ (Routes.auth_me dbInactive 10 tokCarol).status = 400
    ∧ ¬((Routes.auth_me dbInactive 10 tokCarol).status = 401
        ∨ (Routes.auth_me dbInactive 10 tokCarol).status = 403) := by
  decide

/-- C2 (code bug): `UserLogin` declares `confirm_password` as a third
required field, so the two-field body `{email, password}` — which the
claim, the spec and the repository's own tests (`test_login_success`,
`test_login_invalid_credentials`) treat as well-formed — is rejected with
422 even when the credentials are correct, while the same body plus
`confirm_password` yields 200. -/
theorem C2_login_body_requires_confirm_password :
    (Routes.login testDB 0
        { email := some "test@example.com"
          password := some "TestPassword123"
          confirm_password := none }).1.status = 422
    ∧ (Routes.login testDB 0
        { email := some "test@example.com"
          password := some "TestPassword123"
          confirm_password := some "TestPassword123" }).1.status = 200 :=
  ⟨rfl, rfl⟩

/-- C3: a token issued by `create_access_token` with `sub` and `email`
claims verifies via `verify_token` at any instant strictly before its
embedded expiry, yielding the same user id and email; and `verify_token`
returns none whenever the signature does not match the server secret,
whenever the expiry has elapsed, and whenever the `sub` or `email` claim
is missing. -/
theorem C3_token_roundtrip :
    ∀ (uid : Nat) (email : String) (issueT ttl checkT : Nat) (t : JWT),
      (checkT < issueT + ttl →
        AuthService.verify_token checkT
            (AuthService.create_access_token issueT (some uid) (some email)
              (some ttl))
          = some { user_id := some uid, email := some email })
      ∧ (t.sig ≠ jwtSign settings.secret_key t.claims →
          AuthService.verify_token checkT t = none)
      ∧ (t.claims.exp < checkT → AuthService.verify_token checkT t = none)
      ∧ (t.claims.sub = none ∨ t.claims.email = none →
          AuthService.verify_token checkT t = none) := by
  intro uid email issueT ttl checkT t
  refine ⟨?_, ?_, ?_, ?_⟩
  · intro h
    have hle : ¬ (issueT + ttl < checkT) := by omega
    simp [AuthService.verify_token, AuthService.create_access_token,
      jwtEncode, jwtDecode, hle]
  · intro h
    have hb : (t.sig == jwtSign settings.secret_key t.claims) = false :=
      beq_eq_false_iff_ne.mpr h
    simp [AuthService.verify_token, jwtDecode, hb]
  · intro h
    cases hb : (t.sig == jwtSign settings.secret_key t.claims) <;>
      simp [AuthService.verify_token, jwtDecode, hb, h]
  · intro h
    cases hb : (t.sig == jwtSign settings.secret_key t.claims)
    · simp [AuthService.verify_token, jwtDecode, hb]
    · by_cases hexp : t.claims.exp < checkT
      · simp [AuthService.verify_token, jwtDecode, hb, hexp]
      · rcases h with h | h
        · simp [AuthService.verify_token, jwtDecode, hb, hexp, h]
        · cases hsub : t.claims.sub <;>
            simp [AuthService.verify_token, jwtDecode, hb, hexp, h, hsub]

/-- C3 witness: roundtrip before expiry, tampered signature, and elapsed
expiry, at concrete inputs. -/
theorem C3_witness :
    AuthService.verify_token 10
        (AuthService.create_access_token 0 (some 5) (some "e@x.com")
          (some 60))
      = some { user_id := some 5, email := some "e@x.com" }
    ∧ AuthService.verify_token 10
        { claims := { sub := some 5, email := some "e@x.com", exp := 60 }
          sig := "tampered" } = none
    ∧ AuthService.verify_token 100
        (AuthService.create_access_token 0 (some 5) (some "e@x.com")
          (some 60)) = none :=
  ⟨(C3_token_roundtrip 5 "e@x.com" 0 60 10
      ⟨⟨some 5, some "e@x.com", 60⟩, "tampered"⟩).1 (by decide),
   (C3_token_roundtrip 5 "e@x.com" 0 60 10
      ⟨⟨some 5, some "e@x.com", 60⟩, "tampered"⟩).2.1 (by decide),
   (C3_token_roundtrip 5 "e@x.com" 0 60 100
      (AuthService.create_access_token 0 (some 5) (some "e@x.com")
        (some 60))).2.2.1 (by decide)⟩

/-- C4: `authenticate_user` returns none exactly when the email matches no
stored user or the stored hash fails verification against the offered
password, and in either failure case the login route produces the one
identical 401 response "Incorrect email or password", so callers cannot
tell the two causes apart. -/
theorem C4_auth_fails_closed :
    ∀ (db : DB) (now : Nat) (creds : UserLogin),
      (AuthService.authenticate_user db creds.email creds.password = none ↔
        UserRepository.get_by_email db creds.email = none ∨
        ∃ u, UserRepository.get_by_email db creds.email = some u ∧
          AuthService.verify_password creds.password u.hashed_password
            = false)
      ∧ (AuthService.authenticate_user db creds.email creds.password
            = none →
          AuthService.login db now creds = none ∧
          (Routes.login db now
              { email := some creds.email, password := some creds.password
                confirm_password := some creds.confirm_password }).1
            = { status := 401, body := none
                detail := some "Incorrect email or password" }) := by
  intro db now creds
  obtain ⟨ce, cp, cc⟩ := creds
  constructor
  · cases hg : UserRepository.get_by_email db ce with
    | none => simp [AuthService.authenticate_user, hg]
    | some u =>
        cases hv : AuthService.verify_password cp u.hashed_password <;>
          simp [AuthService.authenticate_user, hg, hv]
  · intro h
    have hl : AuthService.login db now ⟨ce, cp, cc⟩ = none := by
      simp only [AuthService.login] at h ⊢
      simp [h]
    exact ⟨hl, by simp [Routes.login, parseUserLogin, hl]⟩

/-- C4 witness: a wrong password against the stored test user produces the
401 response. -/
theorem C4_witness :
    AuthService.authenticate_user testDB "test@example.com" "WrongPass1"
        = none
    ∧ (Routes.login testDB 0
        { email := some "test@example.com", password := some "WrongPass1"
          confirm_password := some "WrongPass1" }).1
      = { status := 401, body := none
          detail := some "Incorrect email or password" } := by
  have h := (C4_auth_fails_closed testDB 0
    { email := "test@example.com", password := "WrongPass1"
      confirm_password := "WrongPass1" }).2 (by decide)
  exact ⟨by decide, h.2⟩

/-- C5: the serialized user response never carries the stored password
hash: `UserResponse.from_orm` does not depend on `hashed_password` at all,
and no field name of the serialized response is `hashed_password`. Every
user-returning handler in this embedding returns `Response UserResponse`,
so this covers every endpoint. -/
theorem C5_password_hash_never_serialized :
    ∀ (u : User) (h : String),
      UserResponse.from_orm { u with hashed_password := h }
          = UserResponse.from_orm u
      ∧ ∀ kv ∈ (UserResponse.from_orm u).serialize,
          kv.1 ≠ "hashed_password" := by
  intro u h
  refine ⟨rfl, ?_⟩
  have hnames : ((UserResponse.from_orm u).serialize).map Prod.fst
      = ["id", "created_at", "updated_at", "email", "username", "full_name",
         "is_active", "is_verified", "last_login"] := rfl
  intro kv hkv hc
  have h1 : kv.1 ∈ ((UserResponse.from_orm u).serialize).map Prod.fst :=
    List.mem_map_of_mem Prod.fst hkv
  rw [hnames, hc] at h1
  exact absurd h1 (by decide)

/-- C5 witness: the theorem at the concrete user `alice`. -/
theorem C5_witness :
    UserResponse.from_orm { alice with hashed_password := "other" }
        = UserResponse.from_orm alice
    ∧ ("email", JsonVal.str "alice@example.com").1 ≠ "hashed_password" :=
  ⟨(C5_password_hash_never_serialized alice "other").1,
   (C5_password_hash_never_serialized alice "other").2
      ("email", JsonVal.str "alice@example.com") (by decide)⟩

/-- C6 (amended): the activate/deactivate pair realises `setActive` in
both directions, idempotently (repeating the call leaves the table as
after one call, at any pair of commit instants), returning none when the
user is absent; but `setVerified` exists only in one direction —
`verify_user` sets `is_verified` to `True` (idempotently, none if absent)
and no repository, service or route operation sets it back to `False` —
so the verified-to-unverified transition of the original claim is not
available. `C6_counterexample` shows no exposed superuser operation
reaches it. -/
theorem C6_flag_operations :
    ∀ (db : DB) (uid : Nat) (n1 n2 : Nat),
      (UserRepository.get db uid = none →
        UserRepository.activate_user db uid n1 = (none, db)
        ∧ UserRepository.deactivate_user db uid n1 = (none, db)
        ∧ UserRepository.verify_user db uid n1 = (none, db))
      ∧ (UserRepository.activate_user
            (UserRepository.activate_user db uid n1).2 uid n2).2
          = (UserRepository.activate_user db uid n1).2
      ∧ (UserRepository.deactivate_user
            (UserRepository.deactivate_user db uid n1).2 uid n2).2
          = (UserRepository.deactivate_user db uid n1).2
      ∧ (UserRepository.verify_user
            (UserRepository.verify_user db uid n1).2 uid n2).2
          = (UserRepository.verify_user db uid n1).2
      ∧ ∀ u, UserRepository.get db uid = some u →
          (UserRepository.get (UserRepository.activate_user db uid n1).2
              uid).map User.is_active = some true
          ∧ (UserRepository.get (UserRepository.deactivate_user db uid n1).2
              uid).map User.is_active = some false
          ∧ (UserRepository.get (UserRepository.verify_user db uid n1).2
              uid).map User.is_verified = some true
          ∧ (UserRepository.get (UserRepository.verify_user db uid n1).2
              uid).map User.is_active = some u.is_active := by
  intro db uid n1 n2
  refine ⟨?_, ?_, ?_, ?_, ?_⟩
  · intro h
    exact ⟨UserRepository.update_absent _ n1 h,
      UserRepository.update_absent _ n1 h,
      UserRepository.update_absent _ n1 h⟩
  · exact UserRepository.update_single_idem db uid (.is_active true) n1 n2
  · exact UserRepository.update_single_idem db uid (.is_active false) n1 n2
  · exact UserRepository.update_single_idem db uid (.is_verified true) n1 n2
  · intro u hu
    refine ⟨?_, ?_, ?_, ?_⟩
    · unfold UserRepository.activate_user
      rw [UserRepository.get_update_self [FieldVal.is_active true] n1 hu]
      simp [UserRepository.commitRow_is_active, setAttr]
    · unfold UserRepository.deactivate_user
      rw [UserRepository.get_update_self [FieldVal.is_active false] n1 hu]
      simp [UserRepository.commitRow_is_active, setAttr]
    · unfold UserRepository.verify_user
      rw [UserRepository.get_update_self [FieldVal.is_verified true] n1 hu]
      simp [UserRepository.commitRow_is_verified, setAttr]
    · unfold UserRepository.verify_user
      rw [UserRepository.get_update_self [FieldVal.is_verified true] n1 hu]
      simp [UserRepository.commitRow_is_active, setAttr]

/-- C6 witness: the amended theorem at concrete tables and instants. -/
theorem C6_witness :
    UserRepository.activate_user ([] : DB) 1 3 = (none, [])
    ∧ (UserRepository.get (UserRepository.deactivate_user [alice] 1 3).2
        1).map User.is_active = some false
    ∧ (UserRepository.get (UserRepository.verify_user [alice] 1 3).2
        1).map User.is_verified = some true := by
  refine ⟨((C6_flag_operations [] 1 3 9).1 rfl).1, ?_, ?_⟩
  · exact ((C6_flag_operations [alice] 1 3 9).2.2.2.2 alice (by decide)).2.1
  · exact ((C6_flag_operations [alice] 1 3 9).2.2.2.2 alice
      (by decide)).2.2.1

/-- Table of the C6 counterexample: a superuser and a verified user. -/
def dbC6 : DB := [adminUser, bob]

/-- C6 counterexample to the original claim: `bob` is verified, and no
operation a superuser can reach through the exposed user-management
endpoints — activate, deactivate, verify, update, delete, at any target
id, any update body and any commit instant — ever yields a state in which
`bob` exists with `is_verified = false`: the verified-to-unverified
transition is unreachable. -/
theorem C6_counterexample :
    (UserRepository.get dbC6 4).map User.is_verified = some true
    ∧ ¬ ∃ (op : AdminOp) (now : Nat),
        (UserRepository.get
            (applyAdminOp dbC6 (UserResponse.from_orm adminUser) now op)
            4).map User.is_verified = some false := by
  refine ⟨by decide, ?_⟩
  rintro ⟨op, now, hop⟩
  rcases apply_admin_op_preserves_verified dbC6
      (UserResponse.from_orm adminUser) now op 4 (u := bob) (by decide)
      (by decide)
    with h | h
  · rw [h] at hop; simp at hop
  · rw [h] at hop; simp at hop

/-- Partial input that renames only `full_name`, for the C7 instances. -/
def renameBody : UserUpdate :=
  { email := none, username := none
    full_name := some (some "Alice Smith"), is_active := none }

/-- C7 counterexample to the original claim: updating only `full_name`
also changes `updated_at` — a field not present in the partial input —
because every effective commit fires the ORM's
`onupdate=datetime.utcnow` on `updated_at` (`models/base.py` line 19): the
stored row's `updated_at` moves from 0 to the commit instant 5. -/
theorem C7_counterexample :
    UserService.update_user [alice] 1 renameBody 5
      = .ok (some (UserResponse.from_orm
          { alice with full_name := some "Alice Smith", updated_at := 5 },
        [{ alice with full_name := some "Alice Smith", updated_at := 5 }]))
    ∧ renameBody.email = none ∧ renameBody.username = none
    ∧ renameBody.is_active = none
    ∧ alice.updated_at = 0
    ∧ ({ alice with full_name := some "Alice Smith", updated_at := 5 }
        : User).updated_at ≠ alice.updated_at := by
  exact ⟨rfl, rfl, rfl, rfl, rfl, by decide⟩

/-- C7 (amended): `update_user` returns none when the target is absent;
it raises the duplicate-email (resp. duplicate-username) error only when
that field is present and non-null in the partial input, differs from the
target's current value, and another user holds it; a present-but-null
email, username or is_active aborts the commit with `IntegrityError` and
no durable write; and on success the stored record is exactly
`applyUpdCommitted` of the old record — the data fields present in the
input overwritten, every unset data field and every other row unchanged,
and `updated_at` bumped to the commit instant exactly when the update
effects a change (the ORM's `onupdate`). -/
theorem C7_update_profile :
    ∀ (db : DB) (uid : Nat) (d : UserUpdate) (now : Nat),
      (UserRepository.get db uid = none →
        UserService.update_user db uid d now = .ok none)
      ∧ (∀ msg, UserService.update_user db uid d now
            = .error (.valueError msg) →
          ∃ u, UserRepository.get db uid = some u ∧
            ((msg = "Email already registered"
                ∧ ∃ e, d.email = some (some e) ∧ e ≠ u.email
                    ∧ ∃ w, UserRepository.get_by_email db e = some w
                        ∧ w ≠ u)
              ∨ (msg = "Username already taken"
                ∧ ∃ t, d.username = some (some t) ∧ t ≠ u.username
                    ∧ ∃ w, UserRepository.get_by_username db t = some w
                        ∧ w ≠ u)))
      ∧ (UserService.update_user db uid d now = .error .integrityError →
          d.email = some none ∨ d.username = some none
            ∨ d.is_active = some none)
      ∧ (∀ r db2, UserService.update_user db uid d now
            = .ok (some (r, db2)) →
          ∃ u, UserRepository.get db uid = some u
            ∧ r = UserResponse.from_orm (applyUpdCommitted u d now)
            ∧ UserRepository.get db2 uid = some (applyUpdCommitted u d now)
            ∧ ∀ vid, vid ≠ uid →
                UserRepository.get db2 vid = UserRepository.get db vid) := by
  intro db uid d now
  refine ⟨fun h => UserService.update_user_absent d now h,
    fun msg h => UserService.update_user_error h,
    fun h => UserService.update_user_integrity h, ?_⟩
  intro r db2 h
  obtain ⟨u, hget, hr, hdb⟩ := UserService.update_user_ok_some h
  refine ⟨u, hget, hr, ?_, ?_⟩
  · rw [hdb, UserRepository.get_update_self d.toFields now hget,
      commitRow_toFields]
  · intro vid hv
    rw [hdb, UserRepository.get_update_other d.toFields now hv]

/-- C7 witness: the absent case and the success frame at concrete data,
with the stored row carrying the bumped `updated_at`. -/
theorem C7_witness :
    UserService.update_user ([] : DB) 1
        { email := none, username := none, full_name := none
          is_active := none } 0 = .ok none
    ∧ UserRepository.get
        [{ alice with full_name := some "Alice Smith", updated_at := 5 }] 1
        = some (applyUpdCommitted alice renameBody 5) := by
  constructor
  · exact (C7_update_profile [] 1
      { email := none, username := none, full_name := none
        is_active := none } 0).1 rfl
  · obtain ⟨u, hget, hr, hdb2, hframe⟩ := (C7_update_profile [alice] 1
      renameBody 5).2.2.2
      (UserResponse.from_orm
        { alice with full_name := some "Alice Smith", updated_at := 5 })
      [{ alice with full_name := some "Alice Smith", updated_at := 5 }] rfl
    have h0 : UserRepository.get [alice] 1 = some alice := rfl
    rw [h0] at hget
    injection hget with hu
    rw [← hu] at hdb2
    exact hdb2

/-- Table with the superuser and a regular user, for C8. -/
def dbAdmin : DB := [adminUser, alice]

/-- A valid server-issued token for the superuser `adminUser`. -/
def tokAdmin : JWT :=
  AuthService.create_access_token 0 (some 2) (some "admin@example.com")
    (some 3600)

/-- C8 (code bug): the delete and deactivate endpoints can never produce
the claimed 400 self-protection rejection or the 200 success, because the
`get_current_superuser` dependency reads `current_user.is_superuser` on a
`UserResponse` that has no such field, so every request — including a
valid superuser's — dies with `AttributeError` and is answered 500
"Internal server error" by the generic handler, with the table untouched.
The general conjunct shows every possible outcome of the two endpoints
(401, 400 "Inactive user", or 500 — never 200, never the handler's own
messages); the concrete conjuncts evaluate the code at the failing input:
a valid token for the active superuser, targeting itself and another
existing user. -/
theorem C8_superuser_gate_500 :
    (∀ (db : DB) (now : Nat) (token : JWT) (uid : Nat),
      (Routes.delete_user_endpoint db now token uid).2 = db
      ∧ (Routes.deactivate_user_endpoint db now token uid).2 = db
      ∧ ((Routes.delete_user_endpoint db now token uid).1.status = 401
          ∨ (Routes.delete_user_endpoint db now token uid).1.status = 400
          ∨ (Routes.delete_user_endpoint db now token uid).1.status = 500)
      ∧ ((Routes.delete_user_endpoint db now token uid).1.detail
            = some "Could not validate credentials"
          ∨ (Routes.delete_user_endpoint db now token uid).1.detail
            = some "Inactive user"
          ∨ (Routes.delete_user_endpoint db now token uid).1.detail
            = some "Internal server error")
      ∧ ((Routes.deactivate_user_endpoint db now token uid).1.status = 401
          ∨ (Routes.deactivate_user_endpoint db now token uid).1.status
              = 400
          ∨ (Routes.deactivate_user_endpoint db now token uid).1.status
              = 500)
      ∧ ((Routes.deactivate_user_endpoint db now token uid).1.detail
            = some "Could not validate credentials"
          ∨ (Routes.deactivate_user_endpoint db now token uid).1.detail
            = some "Inactive user"
          ∨ (Routes.deactivate_user_endpoint db now token uid).1.detail
            = some "Internal server error"))
    ∧ AuthService.get_current_user dbAdmin 10 tokAdmin = some adminUser
    ∧ adminUser.is_superuser = true
    ∧ adminUser.is_active = true
    ∧ Routes.delete_user_endpoint dbAdmin 10 tokAdmin 2
        = ({ status := 500, body := none
             detail := some "Internal server error" }, dbAdmin)
    ∧ Routes.delete_user_endpoint dbAdmin 10 tokAdmin 1
        = ({ status := 500, body := none
             detail := some "Internal server error" }, dbAdmin)
    ∧ Routes.deactivate_user_endpoint dbAdmin 10 tokAdmin 2
        = ({ status := 500, body := none
             detail := some "Internal server error" }, dbAdmin)
    ∧ Routes.deactivate_user_endpoint dbAdmin 10 tokAdmin 1
        = ({ status := 500, body := none
             detail := some "Internal server error" }, dbAdmin) := by
  refine ⟨?_, by decide, rfl, rfl, rfl, rfl, rfl, rfl⟩
  intro db now token uid
  rcases get_current_superuser_cases db now token with h | h | h <;>
    refine ⟨?_, ?_, ?_, ?_, ?_, ?_⟩ <;>
      simp [Routes.delete_user_endpoint, Routes.deactivate_user_endpoint, h]

/-- C9: neither `authenticate_user` nor `login` consults `is_active`: a
stored user with correct email and password but `is_active = false` still
authenticates, and `login` still issues a token that verifies to that
user's id and email. -/
theorem C9_login_ignores_active_flag :
    ∀ (db : DB) (now : Nat) (u : User) (pwd cpw : String),
      UserRepository.get_by_email db u.email = some u →
      AuthService.verify_password pwd u.hashed_password = true →
      u.is_active = false →
      AuthService.authenticate_user db u.email pwd = some u
      ∧ ∃ tok db2,
          AuthService.login db now
              { email := u.email, password := pwd, confirm_password := cpw }
            = some (tok, db2)
          ∧ AuthService.verify_token now tok.access_token
              = some { user_id := some u.id, email := some u.email } := by
  intro db now u pwd cpw hget hv _
  have hauth : AuthService.authenticate_user db u.email pwd = some u := by
    simp [AuthService.authenticate_user, hget, hv]
  refine ⟨hauth, ?_⟩
  have hlogin : AuthService.login db now
      { email := u.email, password := pwd, confirm_password := cpw }
      = some ({ access_token := AuthService.create_access_token now
                  (some u.id) (some u.email)
                  (some (settings.access_token_expire_minutes * 60))
                token_type := "bearer"
                expires_in := settings.access_token_expire_minutes * 60 },
              (UserRepository.update_last_login db u.id now).2) := by
    simp [AuthService.login, hauth]
  refine ⟨_, _, hlogin, ?_⟩
  have hnl : ¬ (now + settings.access_token_expire_minutes * 60 < now) := by
    omega
  simp [AuthService.verify_token, AuthService.create_access_token,
    jwtEncode, jwtDecode, hnl]

/-- C9 witness: the inactive user `carol` logs in with the correct
password and receives a verifying token. -/
theorem C9_witness :
    AuthService.authenticate_user [carol] carol.email "CarolPass1"
        = some carol
    ∧ ∃ tok db2,
        AuthService.login [carol] 5
            { email := carol.email, password := "CarolPass1"
              confirm_password := "CarolPass1" } = some (tok, db2)
        ∧ AuthService.verify_token 5 tok.access_token
            = some { user_id := some carol.id, email := some carol.email } :=
  C9_login_ignores_active_flag [carol] 5 carol "CarolPass1" "CarolPass1"
    (by decide) (by decide) rfl

/-- The `PUT /users/me` body that flips the caller's own active flag. -/
def selfDeactivateBody : UserUpdate :=
  { email := none, username := none, full_name := none
    is_active := some (some false) }

/-- C10: `UserUpdate` includes `is_active` and the self-update handler
applies it unconditionally, so any authenticated user — superuser or not —
who sends `is_active = false` to `PUT /users/me` gets 200 and ends up
deactivated, bypassing the self-deactivation guard that exists only on
the dedicated deactivate endpoint. -/
theorem C10_self_update_bypasses_guard :
    ∀ (db : DB) (cur : UserResponse) (u : User) (now : Nat),
      UserRepository.get db cur.id = some u →
      (Routes.update_my_profile db cur selfDeactivateBody now).1.status
          = 200
      ∧ (UserRepository.get
          (Routes.update_my_profile db cur selfDeactivateBody now).2
          cur.id).map User.is_active = some false := by
  intro db cur u now hget
  have hupd : UserService.update_user db cur.id selfDeactivateBody now
      = .ok (some (UserResponse.from_orm
            (UserRepository.commitRow u selfDeactivateBody.toFields now),
          (UserRepository.update db cur.id selfDeactivateBody.toFields
              now).2)) := by
    unfold UserService.update_user
    rw [hget, UserRepository.update_present selfDeactivateBody.toFields
      now hget]
    rfl
  have hdb2 : (Routes.update_my_profile db cur selfDeactivateBody now).2
      = (UserRepository.update db cur.id selfDeactivateBody.toFields
          now).2 := by
    simp [Routes.update_my_profile, hupd]
  have hst : (Routes.update_my_profile db cur selfDeactivateBody
      now).1.status = 200 := by
    simp [Routes.update_my_profile, hupd]
  refine ⟨hst, ?_⟩
  rw [hdb2,
    UserRepository.get_update_self selfDeactivateBody.toFields now hget]
  simp [UserRepository.commitRow_is_active, selfDeactivateBody,
    UserUpdate.toFields, setAttr]

/-- C10 witness: `alice` (not a superuser) deactivates herself through
`PUT /users/me`. -/
theorem C10_witness :
    (Routes.update_my_profile [alice] (UserResponse.from_orm alice)
        selfDeactivateBody 7).1.status = 200
    ∧ (UserRepository.get
        (Routes.update_my_profile [alice] (UserResponse.from_orm alice)
          selfDeactivateBody 7).2
        (UserResponse.from_orm alice).id).map User.is_active = some false :=
  C10_self_update_bypasses_guard [alice] (UserResponse.from_orm alice)
    alice 7 (by decide)

end App
